import Mathlib

/-
  Verification of the Physics & Statistical Measurement Engine of the
  PhotoEE photoelectric-effect simulator (src/app.js).

  Shallow embedding conventions:
  * JavaScript numbers are idealised as exact rationals (ℚ) wherever the
    source performs only field arithmetic; the two genuinely transcendental
    operations of the source, Math.exp and Math.sqrt, are embedded through
    Real.exp and Real.sqrt, so the affected quantities live in ℝ.
  * The one place where the source can divide by zero on a float
    (thresholdWavelength, src/app.js line 279) is embedded with an explicit
    zero-denominator check: the value none models the non-finite IEEE result
    (Infinity) that the JavaScript division would produce; some q models the
    finite value q.
  * The injectable random source of the sampler is a list of draws
    us : List ℝ, one entry per call of Math.random(), each in [0,1).
  * Mutation of the application state (this.state, this.experimentData,
    the chart dataset) is embedded as explicit state passing on SimState.
-/

namespace PhotoEE

/-! ## Physical constants (src/app.js lines 7-11) -/

def planckConstant : ℚ := 4136 / 10 ^ 18

def speedOfLight : ℚ := 2998 * 10 ^ 5

def elementaryCharge : ℚ := 1602 / 10 ^ 22

/-! ## Material catalog (src/app.js lines 14-22) -/

structure Material where
  name : String
  symbol : String
  workFunction : ℚ
  color : String
deriving DecidableEq, Repr

def cesium : Material := ⟨"Cesium", "Cs", 21 / 10, "#FF6B6B"⟩

def sodium : Material := ⟨"Sodium", "Na", 228 / 100, "#4ECDC4"⟩

def potassium : Material := ⟨"Potassium", "K", 230 / 100, "#45B7D1"⟩

def aluminum : Material := ⟨"Aluminum", "Al", 408 / 100, "#96CEB4"⟩

def copper : Material := ⟨"Copper", "Cu", 470 / 100, "#FFEAA7"⟩

def silver : Material := ⟨"Silver", "Ag", 473 / 100, "#DDA0DD"⟩

def gold : Material := ⟨"Gold", "Au", 510 / 100, "#FFD700"⟩

def materials : List Material :=
  [cesium, sodium, potassium, aluminum, copper, silver, gold]

/-! ## Experiment parameters: the slice of this.state read by
    calculatePhysics (src/app.js lines 25-30) -/

structure SimParams where
  currentMaterial : Material
  wavelength : ℚ
  intensity : ℚ
  area : ℚ
  voltage : ℚ
deriving DecidableEq

/-- Documented parameter ranges of the spec (wavelengthNm in [100,700],
intensityWPerM2 in [1,10], areaCm2 in [0.01,1.00], appliedVoltageV in
[-5,5]). -/
def inRange (p : SimParams) : Prop :=
  100 ≤ p.wavelength ∧ p.wavelength ≤ 700 ∧
  1 ≤ p.intensity ∧ p.intensity ≤ 10 ∧
  1 / 100 ≤ p.area ∧ p.area ≤ 1 ∧
  -5 ≤ p.voltage ∧ p.voltage ≤ 5

instance (p : SimParams) : Decidable (inRange p) := by
  unfold inRange; infer_instance

/-! ## PhysicsModel: calculatePhysics (src/app.js lines 265-313) -/

/-- src/app.js line 267: frequency = speedOfLight / (wavelength * 1e-9). -/
def frequencyOf (p : SimParams) : ℚ :=
  speedOfLight / (p.wavelength * (1 / 10 ^ 9))

/-- src/app.js line 270: photonEnergy = planckConstant * frequency. -/
def photonEnergyOf (p : SimParams) : ℚ :=
  planckConstant * frequencyOf p

/-- src/app.js line 273: workFunction = currentMaterial.workFunction. -/
def workFunctionOf (p : SimParams) : ℚ :=
  p.currentMaterial.workFunction

/-- src/app.js line 276: maxKineticEnergy = max(0, photonEnergy - workFunction). -/
def maxKineticEnergyOf (p : SimParams) : ℚ :=
  max 0 (photonEnergyOf p - workFunctionOf p)

/-- src/app.js line 279:
thresholdWavelength = planckConstant * speedOfLight / (workFunction * 1.602e-19) * 1e9.
The floating-point division is non-finite exactly when the denominator is
zero; none embeds that non-finite outcome (Infinity). -/
def thresholdWavelengthOf (p : SimParams) : Option ℚ :=
  if workFunctionOf p * elementaryCharge = 0 then none
  else some (planckConstant * speedOfLight / (workFunctionOf p * elementaryCharge) * 10 ^ 9)

/-- src/app.js line 282: stoppingPotential = maxKineticEnergy. -/
def stoppingPotentialOf (p : SimParams) : ℚ :=
  maxKineticEnergyOf p

/-- src/app.js line 285: isEmission = photonEnergy > workFunction. -/
def isEmissionOf (p : SimParams) : Bool :=
  decide (workFunctionOf p < photonEnergyOf p)

/-- src/app.js line 291: saturationCurrent = intensity * area * 0.001. -/
def saturationCurrentOf (p : SimParams) : ℚ :=
  p.intensity * p.area * (1 / 1000)

/-- src/app.js lines 288-301: the current, zero unless emission occurs and
voltage >= -stoppingPotential; saturation for voltage >= 0; exponential
retarding branch saturationCurrent * exp(voltage / stoppingPotential)
otherwise. -/
noncomputable def currentOf (p : SimParams) : ℝ :=
  if workFunctionOf p < photonEnergyOf p ∧ -(stoppingPotentialOf p) ≤ p.voltage then
    if 0 ≤ p.voltage then (saturationCurrentOf p : ℝ)
    else (saturationCurrentOf p : ℝ) *
      Real.exp ((p.voltage : ℝ) / (stoppingPotentialOf p : ℝ))
  else 0

/-- Same computation as currentOf, with the division of the retarding
branch checked: none records that the source would have divided by zero
at src/app.js line 298. -/
noncomputable def currentCheckedOf (p : SimParams) : Option ℝ :=
  if workFunctionOf p < photonEnergyOf p ∧ -(stoppingPotentialOf p) ≤ p.voltage then
    if 0 ≤ p.voltage then some (saturationCurrentOf p : ℝ)
    else if stoppingPotentialOf p = 0 then none
    else some ((saturationCurrentOf p : ℝ) *
      Real.exp ((p.voltage : ℝ) / (stoppingPotentialOf p : ℝ)))
  else some 0

/-- The record returned by calculatePhysics (src/app.js lines 303-312). -/
structure PhysicsResult where
  frequency : ℚ
  photonEnergy : ℚ
  workFunction : ℚ
  maxKineticEnergy : ℚ
  thresholdWavelength : Option ℚ
  stoppingPotential : ℚ
  current : ℝ
  isEmission : Bool

/-- calculatePhysics (src/app.js lines 265-313). -/
noncomputable def calculatePhysics (p : SimParams) : PhysicsResult :=
  { frequency := frequencyOf p
    photonEnergy := photonEnergyOf p
    workFunction := workFunctionOf p
    maxKineticEnergy := maxKineticEnergyOf p
    thresholdWavelength := thresholdWavelengthOf p
    stoppingPotential := stoppingPotentialOf p
    current := currentOf p
    isEmission := isEmissionOf p }

/-! ## MeasurementSampler (src/app.js lines 355-371) -/

/-- One synthetic sample (src/app.js lines 363-364):
noise = (u - 0.5) * 0.0001 * current; sample = current + noise,
where u is one draw of the injected random source. -/
noncomputable def noiseSample (current u : ℝ) : ℝ :=
  current + (u - 1 / 2) * (1 / 10 ^ 4) * current

/-- The sequence of synthetic samples (src/app.js lines 358-365): one per
draw of the random source. A run of the source performs exactly 1000
draws, hence us.length = 1000 in every execution. -/
noncomputable def takeMeasurements (current : ℝ) (us : List ℝ) : List ℝ :=
  us.map (noiseSample current)

/-- src/app.js line 368: mean = sum / measurementCount, measurementCount = 1000. -/
noncomputable def meanOf (ms : List ℝ) : ℝ :=
  ms.sum / 1000

/-- src/app.js line 369: population variance, divided by measurementCount = 1000. -/
noncomputable def varianceOf (ms : List ℝ) : ℝ :=
  (ms.map (fun b => (b - meanOf ms) ^ 2)).sum / 1000

/-- src/app.js line 370: standardDeviation = sqrt(variance). -/
noncomputable def standardDeviationOf (ms : List ℝ) : ℝ :=
  Real.sqrt (varianceOf ms)

/-- src/app.js line 371: standardError = standardDeviation / sqrt(1000). -/
noncomputable def standardErrorOf (ms : List ℝ) : ℝ :=
  standardDeviationOf ms / Real.sqrt 1000

/-- Modelled from the spec: the spec's per-sample formula
sample = currentUa + (u - 0.5) * 2 * noiseFraction * currentUa with
noiseFraction = 0.0001 (section 4.2). Stated only for comparison with the
source's noiseSample; the source is the authority. -/
def specSampleFormula (current u : ℚ) : ℚ :=
  current + (u - 1 / 2) * 2 * (1 / 10 ^ 4) * current

/-! ## Application state and ledger operations -/

/-- One entry of this.experimentData (src/app.js lines 374-386). -/
structure MeasurementData where
  voltage : ℚ
  mean : ℝ
  standardDeviation : ℝ
  standardError : ℝ
  measurements : ℕ
  individualReadings : List ℝ
  timestamp : ℕ
  material : String
  wavelength : ℚ
  intensity : ℚ
  area : ℚ

/-- The mutable application state touched by the engine: the parameter
slice of this.state, the light flag, the measurement counter, the ledger
this.experimentData and the chart dataset (the I-V points pushed at
src/app.js lines 399-402). -/
structure SimState where
  currentMaterial : Material
  wavelength : ℚ
  intensity : ℚ
  area : ℚ
  voltage : ℚ
  isLightOn : Bool
  measurementCount : ℕ
  experimentData : List MeasurementData
  chartData : List (ℚ × ℝ)

/-- The parameter slice of a state, as read by calculatePhysics. -/
def paramsOf (st : SimState) : SimParams :=
  ⟨st.currentMaterial, st.wavelength, st.intensity, st.area, st.voltage⟩

/-- The initial state built by the constructor (src/app.js lines 25-39):
Cesium, 400 nm, 5 W/m2, 0.10 cm2, 0 V, light off, empty ledger and chart. -/
def initialState : SimState :=
  ⟨cesium, 400, 5, 1 / 10, 0, false, 0, [], []⟩

/-- takePrecisionMeasurement (src/app.js lines 355-409): computes the
physics current, draws the 1000 noisy samples from the random source us,
computes their statistics, appends a MeasurementData record stamped now,
increments the counter and appends the (voltage, mean) chart point. -/
noncomputable def takePrecisionMeasurementOp (st : SimState) (us : List ℝ) (now : ℕ) :
    SimState :=
  let physicsCurrent := currentOf (paramsOf st)
  let measurements := takeMeasurements physicsCurrent us
  { st with
    experimentData := st.experimentData ++
      [{ voltage := st.voltage
         mean := meanOf measurements
         standardDeviation := standardDeviationOf measurements
         standardError := standardErrorOf measurements
         measurements := 1000
         individualReadings := measurements
         timestamp := now
         material := st.currentMaterial.name
         wavelength := st.wavelength
         intensity := st.intensity
         area := st.area }]
    measurementCount := st.measurementCount + 1
    chartData := st.chartData ++ [(st.voltage, meanOf measurements)] }

/-- resetExperiment (src/app.js lines 797-828): light off, counter 0,
ledger cleared, chart cleared (via clearGraph at line 811), parameters
restored to the defaults of the constructor. -/
def resetExperimentOp (_st : SimState) : SimState :=
  { currentMaterial := cesium
    wavelength := 400
    intensity := 5
    area := 1 / 10
    voltage := 0
    isLightOn := false
    measurementCount := 0
    experimentData := []
    chartData := [] }

/-- clearGraph (src/app.js lines 830-834): empties the chart dataset only. -/
def clearGraphOp (st : SimState) : SimState :=
  { st with chartData := [] }

/-- The tabular snapshot of the most recent records,
this.experimentData.slice(-10) (src/app.js line 416). -/
def snapshotOp (st : SimState) : List MeasurementData :=
  st.experimentData.drop (st.experimentData.length - 10)

/-- The I-V curve dataset in insertion order. -/
def ivCurveOp (st : SimState) : List (ℚ × ℝ) :=
  st.chartData

/-! ## Exporter (src/app.js lines 836-893) -/

/-- One exported CSV row, field for field in the order of the header
(src/app.js lines 843-877); numeric fields are carried as values, the
source's toFixed rendering being presentation only. -/
structure CsvRow where
  timestamp : ℕ
  material : String
  workFunctionEv : ℚ
  wavelengthNm : ℚ
  photonEnergyEv : ℚ
  intensityWPerM2 : ℚ
  areaCm2 : ℚ
  appliedVoltageV : ℚ
  meanCurrentUa : ℝ
  standardDeviationUa : ℝ
  standardErrorUa : ℝ
  measurementsCount : ℕ
  individualReadings : List ℝ

/-- The row built for one record (src/app.js lines 861-877). Note line 866:
the Work_Function_eV field reads this.state.currentMaterial.workFunction,
the material selected at export time, not a field of the record. Line 862
recomputes photonEnergy = planckConstant * speedOfLight / (wavelength * 1e-9). -/
def exportRow (st : SimState) (d : MeasurementData) : CsvRow :=
  { timestamp := d.timestamp
    material := d.material
    workFunctionEv := st.currentMaterial.workFunction
    wavelengthNm := d.wavelength
    photonEnergyEv := planckConstant * speedOfLight / (d.wavelength * (1 / 10 ^ 9))
    intensityWPerM2 := d.intensity
    areaCm2 := d.area
    appliedVoltageV := d.voltage
    meanCurrentUa := d.mean
    standardDeviationUa := d.standardDeviation
    standardErrorUa := d.standardError
    measurementsCount := d.measurements
    individualReadings := d.individualReadings }

/-- exportAllData (src/app.js lines 836-893): with an empty ledger the
function alerts and returns without building any payload (lines 837-840),
embedded as the distinguishable error outcome none; otherwise it builds one
row per record. The function assigns none of the ledger state, so the state
component of the result is the input state. -/
def exportAllDataOp (st : SimState) : SimState × Option (List CsvRow) :=
  if st.experimentData.length = 0 then (st, none)
  else (st, some (st.experimentData.map (exportRow st)))

/-- Catalog lookup by material name, used to state which work function the
record of a given row designates. -/
def materialByName (n : String) : Option Material :=
  materials.find? (fun m => m.name == n)

/-- The ledger invariant of the spec: len(records) == counter. -/
def ledgerInvariant (st : SimState) : Prop :=
  st.experimentData.length = st.measurementCount

/-! ## Concrete inputs used by individual claims -/

/-- 400 nm light on Cesium at the default intensity, area and zero bias. -/
def c2Params : SimParams := ⟨cesium, 400, 5, 1 / 10, 0⟩

/-- A caller-supplied material whose work function is zero. -/
def zeroWorkFunctionMaterial : Material := ⟨"Custom", "X0", 0, "#000000"⟩

/-- Zero work function reaching the physics model at 400 nm. -/
def c4Params : SimParams := ⟨zeroWorkFunctionMaterial, 400, 5, 1 / 10, 0⟩

/-- A ledger record measured while Cesium was the selected material. -/
def c3Record : MeasurementData :=
  { voltage := 0
    mean := 0
    standardDeviation := 0
    standardError := 0
    measurements := 1000
    individualReadings := []
    timestamp := 0
    material := "Cesium"
    wavelength := 400
    intensity := 5
    area := 1 / 10 }

/-- The state at export time: the ledger holds the Cesium record, but the
currently selected material has been switched to Gold. -/
def c3State : SimState :=
  { currentMaterial := gold
    wavelength := 400
    intensity := 5
    area := 1 / 10
    voltage := 0
    isLightOn := false
    measurementCount := 1
    experimentData := [c3Record]
    chartData := [] }

/-! ## Theorems -/

/-- Summing a list whose entries all lie within b of c stays within
length * b of length * c. -/
theorem list_sum_dist_le (c b : ℝ) :
    ∀ l : List ℝ, (∀ x ∈ l, |x - c| ≤ b) → |l.sum - l.length * c| ≤ l.length * b := by
  intro l
  induction l with
  | nil => simp
  | cons x xs ih =>
    intro h
    have hx := h x (List.mem_cons_self x xs)
    have hxs := ih (fun y hy => h y (List.mem_cons_of_mem x hy))
    have hsplit : (x :: xs).sum - ((x :: xs).length : ℝ) * c
        = (x - c) + (xs.sum - (xs.length : ℝ) * c) := by
      simp [List.sum_cons, List.length_cons]
      ring
    rw [hsplit]
    calc |(x - c) + (xs.sum - (xs.length : ℝ) * c)|
        ≤ |x - c| + |xs.sum - (xs.length : ℝ) * c| := abs_add _ _
      _ ≤ b + (xs.length : ℝ) * b := add_le_add hx hxs
      _ = ((x :: xs).length : ℝ) * b := by
          simp [List.length_cons]
          ring

/-- Each synthetic sample of the source lies within 0.00005 of the nominal
current in relative terms: the draw u in [0,1) makes the noise factor
u - 0.5 at most 1/2 in absolute value. -/
theorem noiseSample_band (c u : ℝ) (h0 : 0 ≤ u) (h1 : u < 1) :
    |noiseSample c u - c| ≤ |c| / 20000 := by
  have habs : |u - 1 / 2| ≤ 1 / 2 := abs_le.mpr ⟨by linarith, by linarith⟩
  have hshape : noiseSample c u - c = (u - 1 / 2) * (1 / 10 ^ 4) * c := by
    unfold noiseSample
    ring
  rw [hshape, abs_mul, abs_mul]
  have h4 : |(1 : ℝ) / 10 ^ 4| = 1 / 10 ^ 4 := by norm_num
  rw [h4]
  calc |u - 1 / 2| * (1 / 10 ^ 4) * |c|
      ≤ 1 / 2 * (1 / 10 ^ 4) * |c| := by
        have h10 : (0:ℝ) < 1 / 10 ^ 4 := by norm_num
        have := mul_le_mul_of_nonneg_right habs h10.le
        exact mul_le_mul_of_nonneg_right this (abs_nonneg c)
    _ = |c| / 20000 := by ring

/-- Monotonicity of the branch structure of the source's current
computation: shared helper for the voltage-monotonicity claim. -/
theorem current_branch_monotone (φ E Vs sat v₁ v₂ : ℚ)
    (hsat : 0 ≤ sat) (hVspos : φ < E → 0 < Vs)
    (hv1 : -Vs ≤ v₁) (h12 : v₁ ≤ v₂) (_hv2 : v₂ ≤ 0) :
    (if φ < E ∧ -Vs ≤ v₁ then
       if 0 ≤ v₁ then (sat : ℝ) else (sat : ℝ) * Real.exp ((v₁ : ℝ) / (Vs : ℝ))
     else 0) ≤
    (if φ < E ∧ -Vs ≤ v₂ then
       if 0 ≤ v₂ then (sat : ℝ) else (sat : ℝ) * Real.exp ((v₂ : ℝ) / (Vs : ℝ))
     else 0) := by
  by_cases hem : φ < E
  · have hVs := hVspos hem
    have hVsR : (0 : ℝ) < (Vs : ℝ) := by exact_mod_cast hVs
    have hsatR : (0 : ℝ) ≤ (sat : ℝ) := by exact_mod_cast hsat
    have hv2' : -Vs ≤ v₂ := le_trans hv1 h12
    rw [if_pos (show φ < E ∧ -Vs ≤ v₁ from ⟨hem, hv1⟩),
      if_pos (show φ < E ∧ -Vs ≤ v₂ from ⟨hem, hv2'⟩)]
    by_cases h1 : 0 ≤ v₁
    · have h2 : 0 ≤ v₂ := le_trans h1 h12
      rw [if_pos h1, if_pos h2]
    · rw [if_neg h1]
      have hv1neg : (v₁ : ℝ) ≤ 0 := by exact_mod_cast (le_of_not_le h1)
      by_cases h2 : 0 ≤ v₂
      · rw [if_pos h2]
        have hexp : Real.exp ((v₁ : ℝ) / (Vs : ℝ)) ≤ 1 := by
          rw [Real.exp_le_one_iff]
          exact div_nonpos_iff.mpr (Or.inr ⟨hv1neg, hVsR.le⟩)
        calc (sat : ℝ) * Real.exp ((v₁ : ℝ) / (Vs : ℝ))
            ≤ (sat : ℝ) * 1 := mul_le_mul_of_nonneg_left hexp hsatR
          _ = (sat : ℝ) := mul_one _
      · rw [if_neg h2]
        apply mul_le_mul_of_nonneg_left _ hsatR
        apply Real.exp_le_exp.mpr
        have h12R : (v₁ : ℝ) ≤ (v₂ : ℝ) := by exact_mod_cast h12
        exact (div_le_div_iff_of_pos_right hVsR).mpr h12R
  · rw [if_neg (fun hc => hem hc.1), if_neg (fun hc => hem hc.1)]

/-- C1 counterexample: with nominal current 1 uA and a random stream of
1000 draws all equal to 0, every sample produced by the source is
1 - 0.5 * 0.0001 = 0.99995, whereas the claim's formula (with the factor
2) predicts 1 - 0.0001 = 0.9999; the two differ. -/
theorem C1_counterexample :
    takeMeasurements 1 (List.replicate 1000 0) = List.replicate 1000 (19999 / 20000 : ℝ) ∧
    specSampleFormula 1 0 = 9999 / 10000 ∧
    (19999 / 20000 : ℚ) ≠ 9999 / 10000 := by
  refine ⟨?_, by norm_num [specSampleFormula], by norm_num⟩
  rw [takeMeasurements, List.map_replicate]
  norm_num [noiseSample]

/-- C1 amended: each synthetic sample equals
currentUa + (u - 0.5) * noiseFraction * currentUa with
noiseFraction = 0.0001 and no factor 2 (src/app.js line 363), so the noise
band is plus/minus 0.005 percent of the nominal current. -/
theorem C1_amended_sampler (c : ℝ) (us : List ℝ) (_hlen : us.length = 1000)
    (hu : ∀ u ∈ us, 0 ≤ u ∧ u < 1) :
    takeMeasurements c us = us.map (fun u => c + (u - 1 / 2) * (1 / 10 ^ 4) * c) ∧
    ∀ s ∈ takeMeasurements c us, |s - c| ≤ |c| / 20000 := by
  refine ⟨rfl, ?_⟩
  intro s hs
  rcases List.mem_map.mp hs with ⟨u, hu', rfl⟩
  exact noiseSample_band c u (hu u hu').1 (hu u hu').2

/-- C1 witness: a concrete 1000-draw stream with all draws 1/2 and nominal
current 1 satisfies the hypotheses and the band bound. -/
theorem C1_amended_sampler_witness :
    (List.replicate 1000 ((1 : ℝ) / 2)).length = 1000 ∧
    ∀ s ∈ takeMeasurements 1 (List.replicate 1000 ((1 : ℝ) / 2)),
      |s - 1| ≤ |(1 : ℝ)| / 20000 :=
  ⟨List.length_replicate 1000 _,
    (C1_amended_sampler 1 (List.replicate 1000 (1 / 2)) (List.length_replicate 1000 _)
      (fun u hu => by rw [List.eq_of_mem_replicate hu]; norm_num)).2⟩

/-- C10: every sample deviates from the nominal current by at most
0.00005 of its absolute value, hence so does the reported mean; with
nominal current 0 every sample, the mean, the standard deviation and the
standard error are exactly 0. -/
theorem C10_sampler_deviation (c : ℝ) (us : List ℝ) (hlen : us.length = 1000)
    (hu : ∀ u ∈ us, 0 ≤ u ∧ u < 1) :
    (∀ s ∈ takeMeasurements c us, |s - c| ≤ |c| / 20000) ∧
    |meanOf (takeMeasurements c us) - c| ≤ |c| / 20000 ∧
    (c = 0 →
      (∀ s ∈ takeMeasurements c us, s = 0) ∧
      meanOf (takeMeasurements c us) = 0 ∧
      standardDeviationOf (takeMeasurements c us) = 0 ∧
      standardErrorOf (takeMeasurements c us) = 0) := by
  have hband : ∀ s ∈ takeMeasurements c us, |s - c| ≤ |c| / 20000 := by
    intro s hs
    rcases List.mem_map.mp hs with ⟨u, hu', rfl⟩
    exact noiseSample_band c u (hu u hu').1 (hu u hu').2
  refine ⟨hband, ?_, ?_⟩
  · have hlen' : (takeMeasurements c us).length = 1000 := by
      simp [takeMeasurements, hlen]
    have hsum := list_sum_dist_le c (|c| / 20000) (takeMeasurements c us) hband
    rw [hlen'] at hsum
    push_cast at hsum
    have hmean : meanOf (takeMeasurements c us) - c
        = ((takeMeasurements c us).sum - 1000 * c) / 1000 := by
      unfold meanOf
      ring
    rw [hmean, abs_div, abs_of_pos (by norm_num : (0 : ℝ) < 1000)]
    linarith [abs_nonneg c]
  · rintro rfl
    have hz : ∀ s ∈ takeMeasurements 0 us, s = 0 := by
      intro s hs
      rcases List.mem_map.mp hs with ⟨u, _, rfl⟩
      simp [noiseSample]
    have hsum0 : (takeMeasurements 0 us).sum = 0 := List.sum_eq_zero hz
    have hmean : meanOf (takeMeasurements 0 us) = 0 := by simp [meanOf, hsum0]
    have hvar : varianceOf (takeMeasurements 0 us) = 0 := by
      unfold varianceOf
      rw [hmean]
      have hsq : ∀ x ∈ (takeMeasurements 0 us).map (fun b => (b - 0) ^ 2), x = 0 := by
        intro x hx
        rcases List.mem_map.mp hx with ⟨b, hb, rfl⟩
        simp [hz b hb]
      rw [List.sum_eq_zero hsq]
      norm_num
    refine ⟨hz, hmean, ?_, ?_⟩
    · simp [standardDeviationOf, hvar]
    · simp [standardErrorOf, standardDeviationOf, hvar]

/-- C10 witness: nominal current 0 with a concrete 1000-draw stream: the
mean, standard deviation and standard error all evaluate to 0. -/
theorem C10_sampler_deviation_witness :
    (List.replicate 1000 (0 : ℝ)).length = 1000 ∧
    meanOf (takeMeasurements 0 (List.replicate 1000 0)) = 0 ∧
    standardDeviationOf (takeMeasurements 0 (List.replicate 1000 0)) = 0 ∧
    standardErrorOf (takeMeasurements 0 (List.replicate 1000 0)) = 0 := by
  have h := C10_sampler_deviation 0 (List.replicate 1000 0) (List.length_replicate 1000 0)
    (fun u hu => by rw [List.eq_of_mem_replicate hu]; norm_num)
  exact ⟨List.length_replicate 1000 0, (h.2.2 rfl).2.1, (h.2.2 rfl).2.2.1, (h.2.2 rfl).2.2.2⟩

/-- C5: for fixed material, wavelength, intensity and area inside the
documented ranges, the computed current is non-decreasing in the applied
voltage across the interval from -stoppingPotential to 0. -/
theorem C5_current_monotone (m : Material) (wl iW aC v₁ v₂ : ℚ)
    (_hwl : 100 ≤ wl) (_hwl2 : wl ≤ 700) (hi : 1 ≤ iW) (_hi2 : iW ≤ 10)
    (ha : 1 / 100 ≤ aC) (_ha2 : aC ≤ 1)
    (hv1 : -(stoppingPotentialOf ⟨m, wl, iW, aC, v₁⟩) ≤ v₁)
    (h12 : v₁ ≤ v₂) (hv2 : v₂ ≤ 0) :
    currentOf ⟨m, wl, iW, aC, v₁⟩ ≤ currentOf ⟨m, wl, iW, aC, v₂⟩ := by
  have hsat : (0 : ℚ) ≤ saturationCurrentOf ⟨m, wl, iW, aC, v₁⟩ :=
    mul_nonneg (mul_nonneg (by linarith) (by linarith)) (by norm_num)
  have hVspos : workFunctionOf ⟨m, wl, iW, aC, v₁⟩ < photonEnergyOf ⟨m, wl, iW, aC, v₁⟩ →
      0 < stoppingPotentialOf ⟨m, wl, iW, aC, v₁⟩ := by
    intro hem
    unfold stoppingPotentialOf maxKineticEnergyOf
    exact lt_max_iff.mpr (Or.inr (by
      unfold workFunctionOf photonEnergyOf at hem ⊢
      linarith))
  exact current_branch_monotone (workFunctionOf ⟨m, wl, iW, aC, v₁⟩)
    (photonEnergyOf ⟨m, wl, iW, aC, v₁⟩) (stoppingPotentialOf ⟨m, wl, iW, aC, v₁⟩)
    (saturationCurrentOf ⟨m, wl, iW, aC, v₁⟩) v₁ v₂ hsat hVspos hv1 h12 hv2

/-- C5 witness: Cesium at 400 nm, intensity 5, area 0.10: the current at
-0.5 V (inside the retarding interval) is at most the current at 0 V. -/
theorem C5_current_monotone_witness :
    -(stoppingPotentialOf ⟨cesium, 400, 5, 1 / 10, -1 / 2⟩) ≤ -1 / 2 ∧
    currentOf ⟨cesium, 400, 5, 1 / 10, -1 / 2⟩ ≤ currentOf ⟨cesium, 400, 5, 1 / 10, 0⟩ := by
  have hv1 : -(stoppingPotentialOf ⟨cesium, 400, 5, 1 / 10, -1 / 2⟩) ≤ -1 / 2 := by
    simp only [stoppingPotentialOf, maxKineticEnergyOf, photonEnergyOf, frequencyOf,
      workFunctionOf, cesium, planckConstant, speedOfLight]
    rw [max_eq_right (by norm_num)]
    norm_num
  exact ⟨hv1,
    C5_current_monotone cesium 400 5 (1 / 10) (-1 / 2) 0 (by norm_num) (by norm_num)
      (by norm_num) (by norm_num) (by norm_num) (by norm_num) hv1
      (by norm_num) (by norm_num)⟩

/-- C6: for in-range parameters with a positive work function the checked
current computation (which records a division by zero in the retarding
branch as none) always returns the unchecked value: the retarding branch
is reachable only under emission, and emission forces a strictly positive
stopping potential, so voltage / stoppingPotential never divides by zero. -/
theorem C6_no_division_by_zero (p : SimParams)
    (_hwf : 0 < p.currentMaterial.workFunction) (_hr : inRange p) :
    currentCheckedOf p = some (currentOf p) ∧
    (workFunctionOf p < photonEnergyOf p → 0 < stoppingPotentialOf p) := by
  have hVs : workFunctionOf p < photonEnergyOf p → 0 < stoppingPotentialOf p := by
    intro hem
    unfold stoppingPotentialOf maxKineticEnergyOf
    exact lt_max_iff.mpr (Or.inr (by linarith))
  refine ⟨?_, hVs⟩
  unfold currentCheckedOf currentOf
  by_cases hcond : workFunctionOf p < photonEnergyOf p ∧ -(stoppingPotentialOf p) ≤ p.voltage
  · rw [if_pos hcond, if_pos hcond]
    by_cases hv : 0 ≤ p.voltage
    · rw [if_pos hv, if_pos hv]
    · rw [if_neg hv, if_neg hv, if_neg (hVs hcond.1).ne']
  · rw [if_neg hcond, if_neg hcond]

/-- C6 witness: the checked and unchecked currents agree at the concrete
in-range Cesium parameters. -/
theorem C6_no_division_by_zero_witness :
    0 < c2Params.currentMaterial.workFunction ∧ inRange c2Params ∧
    currentCheckedOf c2Params = some (currentOf c2Params) := by
  have hwf : 0 < c2Params.currentMaterial.workFunction := by norm_num [c2Params, cesium]
  have hr : inRange c2Params := by norm_num [inRange, c2Params]
  exact ⟨hwf, hr, (C6_no_division_by_zero c2Params hwf hr).1⟩

/-- C2: at wavelength 400 nm with Cesium (work function 2.10 eV) the model
yields photonEnergyEv within 0.01 of 3.10, maxKineticEnergyEv within 0.01
of 1.00 and emissionOccurs = true, but the thresholdWavelengthNm it
computes is 12399728e19/33642, about 3.69e21 nm, exceeding 1e20 and nowhere
near the 590.9 nm the claim states: src/app.js line 279 divides the eV·s
Planck constant by the eV-to-Joule conversion of the work function, a unit
slip. -/
theorem C2_cesium_400nm :
    |(calculatePhysics c2Params).photonEnergy - 31 / 10| ≤ 1 / 100 ∧
    |(calculatePhysics c2Params).maxKineticEnergy - 1| ≤ 1 / 100 ∧
    (calculatePhysics c2Params).isEmission = true ∧
    (calculatePhysics c2Params).thresholdWavelength = some (12399728 * 10 ^ 19 / 33642) ∧
    (10 : ℚ) ^ 20 < 12399728 * 10 ^ 19 / 33642 ∧
    ¬ |(12399728 * 10 ^ 19 / 33642 : ℚ) - 5909 / 10| ≤ 1 := by
  refine ⟨?_, ?_, ?_, ?_, by norm_num, by rw [abs_of_nonneg (by norm_num)]; norm_num⟩ <;>
    simp [calculatePhysics, photonEnergyOf, frequencyOf, workFunctionOf,
      maxKineticEnergyOf, thresholdWavelengthOf, isEmissionOf, c2Params, cesium,
      planckConstant, speedOfLight, elementaryCharge] <;> norm_num [abs_le]

/-- C3: the Work_Function_eV field of an exported row is the work function
of the material selected at export time (src/app.js line 866), not that of
the material recorded in the row's own snapshot: with a Cesium record in
the ledger and Gold selected at export, the row pairs material "Cesium"
(catalog work function 2.10) with work function 5.10. -/
theorem C3_export_work_function :
    ((exportAllDataOp c3State).2).map (List.map CsvRow.workFunctionEv) = some [51 / 10] ∧
    ((exportAllDataOp c3State).2).map (List.map CsvRow.material) = some ["Cesium"] ∧
    materialByName "Cesium" = some cesium ∧
    cesium.workFunction = 21 / 10 ∧
    (51 : ℚ) / 10 ≠ 21 / 10 := by
  refine ⟨?_, ?_, ?_, by norm_num [cesium], by norm_num⟩
  · simp [exportAllDataOp, c3State, c3Record, exportRow, gold]
    norm_num
  · simp [exportAllDataOp, c3State, c3Record, exportRow]
  · simp [materialByName, materials, cesium, List.find?]

/-- C4: a zero work function reaching the physics model is not rejected:
calculatePhysics performs no validation, proceeds, and its
thresholdWavelength division by zero produces the non-finite value
(Infinity, embedded as none) inside an ordinarily returned result. -/
theorem C4_zero_work_function :
    (calculatePhysics c4Params).thresholdWavelength = none ∧
    (calculatePhysics c4Params).isEmission = true := by
  constructor <;>
    simp [calculatePhysics, thresholdWavelengthOf, workFunctionOf, isEmissionOf,
      photonEnergyOf, frequencyOf, c4Params, zeroWorkFunctionMaterial,
      planckConstant, speedOfLight, elementaryCharge]

/-- C7: exporting with zero records yields the distinguishable error
outcome (none) instead of a payload, and leaves the state exactly as it
was. -/
theorem C7_export_empty_ledger (st : SimState) (h : st.experimentData = []) :
    (exportAllDataOp st).2 = none ∧ (exportAllDataOp st).1 = st := by
  constructor <;> simp [exportAllDataOp, h]

/-- C7 witness: the initial state has an empty ledger and exporting it
signals the error, produces no payload and preserves the state. -/
theorem C7_export_empty_ledger_witness :
    (exportAllDataOp initialState).2 = none ∧ (exportAllDataOp initialState).1 = initialState :=
  C7_export_empty_ledger initialState rfl

/-- C8: every engine operation preserves len(records) == counter; a
measurement appends exactly one record at the end (insertion order kept,
nothing removed), clearGraph and export leave the records untouched, and
reset is the only operation that truncates. -/
theorem C8_ledger_invariant (st : SimState) (us : List ℝ) (now : ℕ)
    (_hus : us.length = 1000) (h : ledgerInvariant st) :
    ledgerInvariant (takePrecisionMeasurementOp st us now) ∧
    (∃ r, (takePrecisionMeasurementOp st us now).experimentData = st.experimentData ++ [r]) ∧
    ledgerInvariant (resetExperimentOp st) ∧
    ledgerInvariant (clearGraphOp st) ∧
    (clearGraphOp st).experimentData = st.experimentData ∧
    (exportAllDataOp st).1 = st := by
  refine ⟨?_, ⟨_, rfl⟩, ?_, ?_, rfl, ?_⟩
  · simp [ledgerInvariant, takePrecisionMeasurementOp] at h ⊢
    exact h
  · simp [ledgerInvariant, resetExperimentOp]
  · simpa [ledgerInvariant, clearGraphOp] using h
  · by_cases hlen : st.experimentData.length = 0 <;> simp [exportAllDataOp, hlen]

/-- C8 witness: the invariant facts at the initial state with a concrete
1000-draw random stream. -/
theorem C8_ledger_invariant_witness :
    (List.replicate 1000 (0 : ℝ)).length = 1000 ∧
    ledgerInvariant initialState ∧
    ledgerInvariant (takePrecisionMeasurementOp initialState (List.replicate 1000 0) 0) ∧
    ledgerInvariant (resetExperimentOp initialState) :=
  ⟨List.length_replicate 1000 0, rfl,
    (C8_ledger_invariant initialState (List.replicate 1000 0) 0
      (List.length_replicate 1000 0) rfl).1,
    (C8_ledger_invariant initialState (List.replicate 1000 0) 0
      (List.length_replicate 1000 0) rfl).2.2.1⟩

/-- C9: after reset the snapshot and the I-V curve both have length 0, and
reset is idempotent: applying it twice gives the same post-state as once. -/
theorem C9_reset (st : SimState) :
    (snapshotOp (resetExperimentOp st)).length = 0 ∧
    (ivCurveOp (resetExperimentOp st)).length = 0 ∧
    resetExperimentOp (resetExperimentOp st) = resetExperimentOp st :=
  ⟨by simp [snapshotOp, resetExperimentOp], rfl, rfl⟩

end PhotoEE
